import Mathlib

/-!
Shallow embedding of the lamar-benchmark single-image localization pipeline
(src/pipelines/localize_single_image.py) and the submission packaging utility
(src/lamar/combine_results.py), with theorems checking the specification's
claims against the embedded code.
-/

namespace LamarCombine

/-- Model of the file system as seen by combine_results: the set of paths that
exist, and among them which are regular files.  Paths are plain strings. -/
structure FileSystem where
  existing : List String
  regularFiles : List String
deriving Repr

/-- Split a character list at every occurrence of the separator, keeping
empty groups, as Python str.split with a one-character separator does. -/
def splitChars (sep : Char) : List Char → List (List Char)
  | [] => [[]]
  | c :: cs =>
    match splitChars sep cs with
    | [] => [[]]
    | g :: gs => if c = sep then [] :: g :: gs else (c :: g) :: gs

/-- Python str.split with a one-character separator. -/
def pySplit (sep : Char) (s : String) : List String :=
  (splitChars sep s.toList).map String.mk

/-- Uppercase an ASCII lowercase character, as Python str.upper does on
ASCII input. -/
def upChar (c : Char) : Char :=
  if 'a' ≤ c ∧ c ≤ 'z' then Char.ofNat (c.toNat - 32) else c

/-- Python str.upper restricted to ASCII strings. -/
def asciiUpper (s : String) : String :=
  String.mk (s.toList.map upChar)

/-- Index (from the start) of the last occurrence of a character in a list,
if any.  Mirrors Python str.rfind restricted to single characters. -/
def rfindChar (c : Char) (cs : List Char) : Option Nat :=
  match cs with
  | [] => none
  | x :: xs =>
    match rfindChar c xs with
    | some i => some (i + 1)
    | none => if x = c then some 0 else none

/-- Final path component, as Python PurePath.name (split on the slash). -/
def pathName (p : String) : String :=
  (pySplit '/' p).getLastD ""

/-- Python PurePath.suffix: the extension of the final component, including
the dot; empty when the last dot is the first character or the last one. -/
def pySuffix (p : String) : String :=
  let name := (pathName p).toList
  match rfindChar '.' name with
  | none => ""
  | some i => if 0 < i ∧ i < name.length - 1 then String.mk (name.drop i) else ""

/-- Embedding of assert_valid_txt_path: the three asserted conditions (the
path exists, is a regular file, and has suffix ".txt") as one Boolean. -/
def assert_valid_txt_path (fs : FileSystem) (p : String) : Bool :=
  (p ∈ fs.existing) && (p ∈ fs.regularFiles) && (pySuffix p == ".txt")

/-- Archive entry name for a result argument named nm, as the code builds it
from the split parts after dropping the trailing part. -/
def arcname (nm : String) : String :=
  asciiUpper ((pySplit '_' nm).headD "") ++ "_query_" ++
    ((pySplit '_' nm).tail.headD "") ++ ".txt"

/-- One iteration of the loop body of combine_results over results_paths.
The accumulator carries the archive entry names written so far and the
warnings emitted so far; a failed assert becomes an error value. -/
def processEntry (fs : FileSystem) (acc : List String × List String)
    (e : String × Option String) : Except String (List String × List String) :=
  if (pySplit '_' e.1).length = 3 then
    if (pySplit '_' e.1).getLastD "" = "path" then
      match e.2 with
      | none => .ok (acc.1, acc.2 ++ [e.1])
      | some p =>
        if assert_valid_txt_path fs p then
          .ok (acc.1 ++ [arcname e.1], acc.2)
        else .error "AssertionError: invalid txt path"
    else .error "AssertionError: argument name must end in path"
  else .error "AssertionError: argument name must split into three parts"

/-- The loop of combine_results over the results_paths items, in order. -/
def processAll (fs : FileSystem) (acc : List String × List String) :
    List (String × Option String) → Except String (List String × List String)
  | [] => .ok acc
  | e :: rest =>
    match processEntry fs acc e with
    | .error msg => .error msg
    | .ok acc1 => processAll fs acc1 rest

/-- Embedding of combine_results: validates the description file, then walks
the results_paths items; on success it returns the archive entry names (in
the order written) and the warnings for skipped inputs; an error value is a
raised AssertionError, and no finished archive results from it. -/
def combine_results (fs : FileSystem) (description_path : String)
    (results_paths : List (String × Option String)) :
    Except String (List String × List String) :=
  if assert_valid_txt_path fs description_path then
    processAll fs (["description.txt"], []) results_paths
  else .error "AssertionError: invalid description path"

/-- The results_paths mapping, in CLI registration order (LOCATIONS ×
DEVICES), when only cab_hololens_path is provided. -/
def onlyCabHololens (p : String) : List (String × Option String) :=
  [("cab_hololens_path", some p), ("cab_phone_path", none),
   ("lin_hololens_path", none), ("lin_phone_path", none),
   ("hge_hololens_path", none), ("hge_phone_path", none)]

/-- A file system holding a valid description file and a valid result
file. -/
def fsGood : FileSystem :=
  { existing := ["description.txt", "results/cab.txt"],
    regularFiles := ["description.txt", "results/cab.txt"] }

/-- A file system where the candidate result file has a .json suffix. -/
def fsJson : FileSystem :=
  { existing := ["description.txt", "results/poses.json"],
    regularFiles := ["description.txt", "results/poses.json"] }

end LamarCombine

namespace LamarPipeline

/-- Key of an image record or pose: a (timestamp, sensor id) pair. -/
abbrev QueryKey := Nat × String

/-- Rigid camera pose: a quaternion rotation and a translation vector. -/
structure Pose where
  qw : ℚ
  qx : ℚ
  qy : ℚ
  qz : ℚ
  tx : ℚ
  ty : ℚ
  tz : ℚ
deriving DecidableEq, Repr

/-- A camera sensor as built by create_sensor with a PINHOLE parameter list:
type tag, model, image size, two focal lengths and the principal point.
Numeric parameters are rationals standing for the Python numbers. -/
structure Camera where
  sensor_type : String
  model : String
  width : ℚ
  height : ℚ
  fx : ℚ
  fy : ℚ
  cx : ℚ
  cy : ℚ
  name : String
deriving DecidableEq, Repr

/-- The parts of a session that create_simple_query_session writes: the
Sensors mapping, the RecordsCamera mapping from (timestamp, sensor id) to a
relative image path, and the parsed content of queries.txt. -/
structure QuerySession where
  sensors : List (String × Camera)
  images : List (QueryKey × String)
  queriesTxt : List QueryKey
deriving DecidableEq, Repr

/-- Python-level failures surfaced by the embedded pipeline.  invalidInput
abstracts the exceptions raised when the query image cannot be opened or
decoded (FileNotFoundError/UnidentifiedImageError out of opening the image);
ioError abstracts the OSError raised when a directory cannot be created or
removed; fileNotFound is the explicit FileNotFoundError raised by the CLI
validation; indexError is Python's IndexError. -/
inductive PyError
  | fileNotFound (msg : String)
  | ioError (msg : String)
  | invalidInput (msg : String)
  | indexError (msg : String)
deriving DecidableEq, Repr

/-- Environment of one pipeline run: whether the query image opens and
decodes (and its pixel size when it does), whether the session directories
can be created, whether an existing query session can be removed, and the
pose mapping that the external pose-estimation stage returns. -/
structure Env where
  imageDims : Option (Nat × Nat)
  mkdirSessionOk : Bool
  mkdirRawOk : Bool
  rmtreeOk : Bool
  poses : List (QueryKey × Pose)
deriving DecidableEq, Repr

/-- The session content written by create_simple_query_session for a query
image of the given pixel size: one PINHOLE camera with focal length
0.7 * max(width, height) and principal point at the image center, one image
record under the sentinel timestamp 1000000, and a query list naming it. -/
def buildQuerySession (w h : Nat) : QuerySession :=
  { sensors := [("camera",
      { sensor_type := "camera", model := "PINHOLE",
        width := (w : ℚ), height := (h : ℚ),
        fx := 7/10 * ((max w h : Nat) : ℚ), fy := 7/10 * ((max w h : Nat) : ℚ),
        cx := (w : ℚ) / 2, cy := (h : ℚ) / 2, name := "Phone camera" })]
    images := [((1000000, "camera"), "images/query.jpg")]
    queriesTxt := [(1000000, "camera")] }

/-- Embedding of create_simple_query_session: create the session and raw
data directories, copy and open the query image, and build the minimal
session; returns the session id together with the session content.  The
failure order follows the code: directory creation failures come first,
then the failure to open or decode the image. -/
def create_simple_query_session (session_id : String) (env : Env) :
    Except PyError (String × QuerySession) :=
  if env.mkdirSessionOk then
    if env.mkdirRawOk then
      match env.imageDims with
      | some wh => .ok (session_id, buildQuerySession wh.1 wh.2)
      | none => .error (.invalidInput "query image cannot be opened or decoded")
    else .error (.ioError "cannot create raw_data directory")
  else .error (.ioError "cannot create session directory")

/-- File-system state under the output directory, as localize_image touches
it: the set of existing paths, the target of the sessions/map symlink when
it was created, and the query session content on disk. -/
structure World where
  entries : List String
  mapTarget : Option String
  querySession : Option QuerySession
deriving DecidableEq, Repr

def capturePath : String := "capture"

def sessionsPath : String := "capture/sessions"

def mapLinkPath : String := "capture/sessions/map"

def querySessionPath : String := "capture/sessions/query_single"

/-- mkdir with exist_ok=True: create the path only when it is absent. -/
def mkdirIdem (p : String) (es : List String) : List String :=
  if p ∈ es then es else p :: es

/-- First steps of localize_image: create the capture directory and its
sessions directory (both with exist_ok=True). -/
def setupDirs (w : World) : World :=
  { w with entries := mkdirIdem sessionsPath (mkdirIdem capturePath w.entries) }

/-- The map-link step of localize_image: when nothing exists at
sessions/map, create a symlink to the given map path; otherwise do
nothing. -/
def mapLinkStep (map_path : String) (w : World) : World :=
  if mapLinkPath ∈ w.entries then w
  else { w with entries := mapLinkPath :: w.entries, mapTarget := some map_path }

/-- The cleanup step of localize_image: when a query session directory
exists, remove it recursively (which can fail with an OSError). -/
def cleanQueryStep (env : Env) (w : World) : Except PyError World :=
  if querySessionPath ∈ w.entries then
    if env.rmtreeOk then
      .ok { w with entries := w.entries.filter (fun p => p != querySessionPath),
                   querySession := none }
    else .error (.ioError "cannot remove existing query session")
  else .ok w

/-- A stage-runner invocation, as observable from outside: which runner on
which session(s). -/
inductive Stage
  | extraction (session : String)
  | pairSelection (querySession refSession : String)
  | matching (querySession refSession : String)
  | mapping (refSession : String)
  | poseEstimation (querySession refSession : String)
deriving DecidableEq, Repr

/-- A FeatureExtraction construction: the session it runs on and the
optional key subset (query list). -/
structure ExtractionJob where
  session : String
  queryList : Option (List QueryKey)
deriving DecidableEq, Repr

/-- A PairSelection construction: query-side and reference-side sessions. -/
structure PairsJob where
  querySession : String
  refSession : String
deriving DecidableEq, Repr

/-- A FeatureMatching construction: its sessions, the pairs artifact it
consumes and the extraction artifact(s) it consumes. -/
structure MatchingJob where
  querySession : String
  refSession : String
  pairs : PairsJob
  extract1 : ExtractionJob
  extract2 : Option ExtractionJob
deriving DecidableEq, Repr

/-- A Mapping construction: the reference session and the extraction and
matching artifacts it consumes. -/
structure MappingJob where
  refSession : String
  extract : ExtractionJob
  matching : MatchingJob
deriving DecidableEq, Repr

/-- A PoseEstimation construction: the query session and the extraction,
matching and mapping artifacts it consumes. -/
structure PoseJob where
  querySession : String
  extract : ExtractionJob
  matching : MatchingJob
  mapJob : MappingJob
  queryList : List QueryKey
deriving DecidableEq, Repr

def ExtractionJob.event (j : ExtractionJob) : Stage := .extraction j.session

def PairsJob.event (j : PairsJob) : Stage :=
  .pairSelection j.querySession j.refSession

def MatchingJob.event (j : MatchingJob) : Stage :=
  .matching j.querySession j.refSession

def MappingJob.event (j : MappingJob) : Stage := .mapping j.refSession

def PoseJob.event (j : PoseJob) : Stage :=
  .poseEstimation j.querySession j.matching.refSession

/-- Stages a FeatureMatching run reads artifacts from: its pair-selection
run and the extraction run(s) passed to it. -/
def MatchingJob.deps (j : MatchingJob) : List Stage :=
  [j.pairs.event, j.extract1.event] ++
    (match j.extract2 with
     | some e2 => [e2.event]
     | none => [])

/-- Stages a Mapping run reads artifacts from. -/
def MappingJob.deps (j : MappingJob) : List Stage :=
  [j.extract.event, j.matching.event]

/-- Stages a PoseEstimation run reads artifacts from. -/
def PoseJob.deps (j : PoseJob) : List Stage :=
  [j.extract.event, j.matching.event, j.mapJob.event]

/-- Check that every entry of an execution log lists only dependencies that
already ran: each item is a stage event paired with the events of the
artifacts it consumes, and those must all occur earlier. -/
def depsRespected (seen : List Stage) : List (Stage × List Stage) → Bool
  | [] => true
  | (s, ds) :: rest => ds.all (fun d => seen.contains d) &&
      depsRespected (seen ++ [s]) rest

/-- The three suggested causes printed when localization fails. -/
def failCauses : List String :=
  ["Not enough feature matches with map images",
   "Query image too different from map images",
   "Query image outside mapped area"]

/-- Outcome of the result-interpretation block of localize_image. -/
inductive LocReport
  | localized (pose : Pose)
  | failed (causes : List String)
  | noPoses
deriving DecidableEq, Repr

/-- Pose lookup for a query key, as the membership test on key_pairs. -/
def lookupPose (k : QueryKey) (ps : List (QueryKey × Pose)) : Option Pose :=
  (ps.find? (fun kp => kp.1 == k)).map (fun kp => kp.2)

/-- Embedding of the result-interpretation block of localize_image: when
some poses were estimated, look at the first query key; report success when
it is present and failure with the suggested causes when it is absent.
When no poses were estimated at all, report that.  Indexing an empty query
list is Python's IndexError. -/
def interpret_result (query_list : List QueryKey)
    (poses : List (QueryKey × Pose)) : Except PyError LocReport :=
  if 0 < poses.length then
    match query_list with
    | [] => .error (.indexError "query_list[0]")
    | qk :: _ =>
      match lookupPose qk poses with
      | some pz => .ok (.localized pz)
      | none => .ok (.failed failCauses)
  else .ok .noPoses

/-- Embedding of localize_image: set up the capture layout, link the map
session unless something already exists at sessions/map, destructively
remove any existing query session, build the synthetic query session, run
the eight stage constructions in program order, and interpret the pose
result.  The first component is the execution log: each stage event paired
with the events of the artifacts passed to it; it is empty when the run
fails before the stages. -/
def localize_image (map_path : String) (env : Env) (w : World) :
    List (Stage × List Stage) × Except PyError (World × LocReport) :=
  match cleanQueryStep env (mapLinkStep map_path (setupDirs w)) with
  | .error e => ([], .error e)
  | .ok w3 =>
    match create_simple_query_session "query_single" env with
    | .error e => ([], .error e)
    | .ok pr =>
      let query_id := pr.1
      let qs := pr.2
      let w4 := { w3 with entries := querySessionPath :: w3.entries,
                          querySession := some qs }
      let ref_id := "map"
      let query_list := qs.queriesTxt
      let extraction_map : ExtractionJob := { session := ref_id, queryList := none }
      let pairs_map : PairsJob := { querySession := ref_id, refSession := ref_id }
      let matching_map : MatchingJob :=
        { querySession := ref_id, refSession := ref_id, pairs := pairs_map,
          extract1 := extraction_map, extract2 := none }
      let mapping : MappingJob :=
        { refSession := ref_id, extract := extraction_map, matching := matching_map }
      let extraction_query : ExtractionJob :=
        { session := query_id, queryList := some query_list }
      let pairs_loc : PairsJob := { querySession := query_id, refSession := ref_id }
      let matching_query : MatchingJob :=
        { querySession := query_id, refSession := ref_id, pairs := pairs_loc,
          extract1 := extraction_query, extract2 := some extraction_map }
      let pose_estimation : PoseJob :=
        { querySession := query_id, extract := extraction_query,
          matching := matching_query, mapJob := mapping, queryList := query_list }
      let log := [(extraction_map.event, ([] : List Stage)),
                  (pairs_map.event, []),
                  (matching_map.event, matching_map.deps),
                  (mapping.event, mapping.deps),
                  (extraction_query.event, []),
                  (pairs_loc.event, []),
                  (matching_query.event, matching_query.deps),
                  (pose_estimation.event, pose_estimation.deps)]
      let outcome : Except PyError (World × LocReport) :=
        match interpret_result query_list env.poses with
        | .error e => .error e
        | .ok r => .ok (w4, r)
      (log, outcome)

/-- Embedding of the command-line entry point: validate that the map path
and the query image exist (in this order), then run localize_image.  A
validation failure is a raised FileNotFoundError and nothing else runs. -/
def cli_main (osFS : List String) (map_path query_image : String)
    (env : Env) (w : World) :
    List (Stage × List Stage) × Except PyError (World × LocReport) :=
  if map_path ∈ osFS then
    if query_image ∈ osFS then
      localize_image map_path env w
    else ([], .error (.fileNotFound ("Query image not found: " ++ query_image)))
  else ([], .error (.fileNotFound ("Map path not found: " ++ map_path)))

/-- An environment where everything succeeds: a decodable 64 x 48 image,
working directory operations, and no pose returned by pose estimation. -/
def envStd : Env :=
  { imageDims := some (64, 48), mkdirSessionOk := true, mkdirRawOk := true,
    rmtreeOk := true, poses := [] }

/-- An environment whose query image cannot be opened or decoded. -/
def envNoImg : Env :=
  { imageDims := none, mkdirSessionOk := true, mkdirRawOk := true,
    rmtreeOk := true, poses := [] }

/-- An environment where the session directory cannot be created. -/
def envNoDir : Env :=
  { imageDims := some (64, 48), mkdirSessionOk := false, mkdirRawOk := true,
    rmtreeOk := true, poses := [] }

/-- An environment where an existing query session cannot be removed. -/
def envNoRm : Env :=
  { imageDims := some (64, 48), mkdirSessionOk := true, mkdirRawOk := true,
    rmtreeOk := false, poses := [] }

/-- The camera of the session a builder call returned, if it succeeded. -/
def sessionCameraOf (r : Except PyError (String × QuerySession)) :
    Option Camera :=
  match r with
  | .ok pr => (pr.2.sensors.head?).map (fun sc => sc.2)
  | .error _ => none

/-- An empty output directory. -/
def wEmpty : World := { entries := [], mapTarget := none, querySession := none }

/-- An output directory with an entry already at sessions/map. -/
def wWithMap : World :=
  { entries := [mapLinkPath], mapTarget := none, querySession := none }

/-- An output directory with a leftover query session directory. -/
def wWithQuery : World :=
  { entries := [querySessionPath], mapTarget := none, querySession := none }

/-- An identity pose. -/
def poseId : Pose := ⟨1, 0, 0, 0, 0, 0, 0⟩

end LamarPipeline

namespace LamarCombine

/-- Helper: the loop body fails on an entry whose provided path fails the
txt-path assertion, whatever the entry name is. -/
theorem processEntry_bad (fs : FileSystem) (acc : List String × List String)
    (nm p : String) (hbad : assert_valid_txt_path fs p = false) :
    ∃ e, processEntry fs acc (nm, some p) = .error e := by
  unfold processEntry
  dsimp only
  by_cases h3 : (pySplit '_' nm).length = 3
  · by_cases hl : (pySplit '_' nm).getLastD "" = "path"
    · rw [if_pos h3, if_pos hl, hbad]
      exact ⟨_, rfl⟩
    · rw [if_pos h3, if_neg hl]
      exact ⟨_, rfl⟩
  · rw [if_neg h3]
    exact ⟨_, rfl⟩

/-- Helper: the loop over results_paths fails whenever some provided path
fails the txt-path assertion, from any accumulator state. -/
theorem processAll_bad (fs : FileSystem) (l : List (String × Option String))
    (nm p : String) (hmem : (nm, some p) ∈ l)
    (hbad : assert_valid_txt_path fs p = false) :
    ∀ acc, ∃ e, processAll fs acc l = .error e := by
  induction l with
  | nil => cases hmem
  | cons hd tl ih =>
    intro acc
    rw [processAll]
    rcases List.mem_cons.mp hmem with heq | htl
    · subst heq
      obtain ⟨e, he⟩ := processEntry_bad fs acc nm p hbad
      rw [he]
      exact ⟨e, rfl⟩
    · cases hpe : processEntry fs acc hd with
      | error msg => exact ⟨msg, rfl⟩
      | ok acc1 => exact ih htl acc1

/-- C4: for every file system in which the description file and the single
provided result file (cab_hololens_path) pass the txt-path assertion, and
the other five result paths are absent, combine_results succeeds and the
archive holds exactly description.txt and CAB_query_hololens.txt in that
order, while each of the five absent inputs produces one skip warning. -/
theorem C4_only_cab_hololens_archive (fs : FileSystem) (d p : String)
    (hd : assert_valid_txt_path fs d = true)
    (hp : assert_valid_txt_path fs p = true) :
    combine_results fs d (onlyCabHololens p) =
      .ok (["description.txt", "CAB_query_hololens.txt"],
           ["cab_phone_path", "lin_hololens_path", "lin_phone_path",
            "hge_hololens_path", "hge_phone_path"]) := by
  have pe1 : processEntry fs (["description.txt"], []) ("cab_hololens_path", some p)
      = .ok (["description.txt", "CAB_query_hololens.txt"], []) := by
    show (if assert_valid_txt_path fs p then _ else _) = _
    rw [hp]
    rfl
  unfold combine_results
  rw [hd]
  show processAll fs _ _ = _
  unfold onlyCabHololens
  rw [processAll, pe1]
  rfl

/-- Witness for C4 at a concrete file system with a valid description file
and a valid cab_hololens result file. -/
theorem C4_only_cab_hololens_archive_witness :
    combine_results fsGood "description.txt"
        (onlyCabHololens "results/cab.txt") =
      .ok (["description.txt", "CAB_query_hololens.txt"],
           ["cab_phone_path", "lin_hololens_path", "lin_phone_path",
            "hge_hololens_path", "hge_phone_path"]) :=
  C4_only_cab_hololens_archive fsGood "description.txt" "results/cab.txt"
    (by decide) (by decide)

/-- C5: for every call to combine_results in which some provided result
path fails the txt-path assertion (it does not exist, is not a regular
file, or does not have the .txt suffix), the operation fails with an
assertion error and no archive content is returned. -/
theorem C5_invalid_path_fails (fs : FileSystem) (d : String)
    (results_paths : List (String × Option String)) (nm p : String)
    (hmem : (nm, some p) ∈ results_paths)
    (hbad : assert_valid_txt_path fs p = false) :
    ∃ e, combine_results fs d results_paths = .error e := by
  unfold combine_results
  rcases h : assert_valid_txt_path fs d with _ | _
  · exact ⟨_, rfl⟩
  · simpa using processAll_bad fs results_paths nm p hmem hbad
      (["description.txt"], [])

/-- Witness for C5 at a concrete file system where the provided
cab_hololens path exists and is a regular file but ends in .json. -/
theorem C5_invalid_path_fails_witness :
    ∃ e, combine_results fsJson "description.txt"
        (onlyCabHololens "results/poses.json") = .error e :=
  C5_invalid_path_fails fsJson "description.txt"
    (onlyCabHololens "results/poses.json") "cab_hololens_path"
    "results/poses.json" (by decide) (by decide)

end LamarCombine

namespace LamarPipeline

/-- Helper: a builder call either fails, or returns the given session id
together with the session built from the decoded image size. -/
theorem create_spec (sid : String) (env : Env) :
    (∃ e, create_simple_query_session sid env = .error e) ∨
    (∃ w h, env.imageDims = some (w, h) ∧
      create_simple_query_session sid env =
        .ok (sid, buildQuerySession w h)) := by
  unfold create_simple_query_session
  cases hs : env.mkdirSessionOk
  · exact .inl ⟨_, rfl⟩
  · cases hr : env.mkdirRawOk
    · exact .inl ⟨_, rfl⟩
    · cases hd : env.imageDims with
      | none => exact .inl ⟨_, rfl⟩
      | some wh => exact .inr ⟨wh.1, wh.2, rfl, rfl⟩

/-- C1: for every valid single query image (the directories can be created
and the image decodes), the builder succeeds and the produced session has
exactly one RecordsCamera entry, registered under the sentinel timestamp
1000000 and sensor id camera, and its query list names exactly that
(timestamp, sensor id) entry and nothing else. -/
theorem C1_query_session_single_record (sid : String) (env : Env) (w h : Nat)
    (hdims : env.imageDims = some (w, h))
    (hs : env.mkdirSessionOk = true) (hr : env.mkdirRawOk = true) :
    ∃ qs : QuerySession,
      create_simple_query_session sid env = .ok (sid, qs) ∧
      qs.images = [((1000000, "camera"), "images/query.jpg")] ∧
      qs.queriesTxt = [(1000000, "camera")] := by
  refine ⟨buildQuerySession w h, ?_, rfl, rfl⟩
  unfold create_simple_query_session
  rw [hs, hr, hdims]
  rfl

/-- Witness for C1 at a concrete succeeding environment. -/
theorem C1_query_session_single_record_witness :
    ∃ qs : QuerySession,
      create_simple_query_session "query_single" envStd =
        .ok ("query_single", qs) ∧
      qs.images = [((1000000, "camera"), "images/query.jpg")] ∧
      qs.queriesTxt = [(1000000, "camera")] :=
  C1_query_session_single_record "query_single" envStd 64 48 rfl rfl rfl

/-- C2: every run of localize_image either fails before any stage runs
(empty execution log) or executes exactly the eight stage runners in the
fixed order — extraction(map), pairs(map,map), matching(map,map), mapping,
extraction(query), pairs(query,map), matching(query,map), pose
estimation — and in the log no stage precedes a stage whose artifacts it
consumes. -/
theorem C2_stage_order_fixed (map_path : String) (env : Env) (w : World) :
    (localize_image map_path env w).1 = [] ∨
    ((localize_image map_path env w).1.map Prod.fst =
       [.extraction "map", .pairSelection "map" "map", .matching "map" "map",
        .mapping "map", .extraction "query_single",
        .pairSelection "query_single" "map", .matching "query_single" "map",
        .poseEstimation "query_single" "map"] ∧
     depsRespected [] (localize_image map_path env w).1 = true) := by
  unfold localize_image
  cases hc : cleanQueryStep env (mapLinkStep map_path (setupDirs w)) with
  | error e => exact .inl rfl
  | ok w3 =>
    cases hcr : create_simple_query_session "query_single" env with
    | error e => exact .inl rfl
    | ok pr =>
      rcases create_spec "query_single" env with ⟨e, he⟩ | ⟨w0, h0, hd, hok⟩
      · rw [he] at hcr
        cases hcr
      · rw [hok] at hcr
        cases hcr
        exact .inr ⟨rfl, rfl⟩

/-- Counterexample to C3 as stated: at the empty pose-estimation result the
query key (1000000, camera) is absent, yet the interpreter reports the
no-poses outcome, which carries none of the diagnostic causes — so the
key-absent case does not always come with the diagnostic causes. -/
theorem C3_counterexample_empty_poses :
    lookupPose (1000000, "camera") ([] : List (QueryKey × Pose)) = none ∧
    interpret_result [(1000000, "camera")] ([] : List (QueryKey × Pose)) =
      .ok LocReport.noPoses ∧
    LocReport.noPoses ≠ LocReport.failed failCauses :=
  ⟨rfl, rfl, by decide⟩

/-- C3 (amended): for every pose result in which the first query key is
absent, the interpreter returns a report rather than raising an exception:
the report is never a success, and whenever any pose was estimated at all
it is the failure report carrying the three suggested causes (an entirely
empty result is instead reported as no poses estimated, without them). -/
theorem C3_absent_key_reports_failure (qk : QueryKey) (tl : List QueryKey)
    (poses : List (QueryKey × Pose))
    (habs : lookupPose qk poses = none) :
    ∃ r, interpret_result (qk :: tl) poses = .ok r ∧
      (∀ p : Pose, r ≠ .localized p) ∧
      (poses ≠ [] → r = .failed failCauses) := by
  cases poses with
  | nil =>
    refine ⟨.noPoses, rfl, ?_, ?_⟩
    · intro p hcon
      cases hcon
    · intro hne
      exact absurd rfl hne
  | cons ph ptl =>
    refine ⟨.failed failCauses, ?_, ?_, fun _ => rfl⟩
    · unfold interpret_result
      dsimp only
      rw [habs]
      simp
    · intro p hcon
      cases hcon

/-- Witness for C3 at a concrete nonempty pose result missing the query
key. -/
theorem C3_absent_key_reports_failure_witness :
    ∃ r, interpret_result [(1000000, "camera")] [((5, "cam2"), poseId)] =
        .ok r ∧
      (∀ p : Pose, r ≠ .localized p) ∧
      ([((5, "cam2"), poseId)] ≠ [] → r = .failed failCauses) :=
  C3_absent_key_reports_failure (1000000, "camera") [] [((5, "cam2"), poseId)]
    (by decide)

/-- C6: for every CLI invocation in which the map path or the query image
does not exist, the program fails with a FileNotFoundError and the
execution log is empty: no stage runner is invoked. -/
theorem C6_missing_inputs_fail_fast (osFS : List String) (mp qi : String)
    (env : Env) (w : World) (hmiss : mp ∉ osFS ∨ qi ∉ osFS) :
    ∃ m, cli_main osFS mp qi env w = ([], .error (.fileNotFound m)) := by
  unfold cli_main
  by_cases h1 : mp ∈ osFS
  · rcases hmiss with h | h
    · exact absurd h1 h
    · rw [if_pos h1, if_neg h]
      exact ⟨_, rfl⟩
  · rw [if_neg h1]
    exact ⟨_, rfl⟩

/-- Witness for C6 at a concrete invocation whose query image is absent. -/
theorem C6_missing_inputs_fail_fast_witness :
    ∃ m, cli_main ["maps/session1"] "maps/session1" "missing.jpg" envStd
        wEmpty = ([], .error (.fileNotFound m)) :=
  C6_missing_inputs_fail_fast ["maps/session1"] "maps/session1" "missing.jpg"
    envStd wEmpty (.inr (by decide))

/-- Counterexample to C7 as stated: for a fixed 64 x 48 query image, no
choice of the caller-controllable argument of create_simple_query_session
(the session id, the only parameter besides the capture and the image)
changes the synthesized camera, so the heuristic default is not overridable
by the caller. -/
theorem C7_counterexample_not_overridable :
    ¬ ∃ sid1 sid2 : String,
      sessionCameraOf (create_simple_query_session sid1 envStd) ≠
        sessionCameraOf (create_simple_query_session sid2 envStd) :=
  fun ⟨_, _, hne⟩ => hne rfl

/-- C7 (amended): for every decodable query image of width w and height h,
the synthesized session contains exactly one pinhole camera whose focal
length is 0.7 * max(w, h) (used for both focal parameters) and whose
principal point is the image center (w/2, h/2); the heuristic is a fixed
constant of the builder, not overridable by the caller. -/
theorem C7_camera_heuristic (sid : String) (env : Env) (w h : Nat)
    (hdims : env.imageDims = some (w, h))
    (hs : env.mkdirSessionOk = true) (hr : env.mkdirRawOk = true) :
    ∃ qs : QuerySession,
      create_simple_query_session sid env = .ok (sid, qs) ∧
      qs.sensors = [("camera",
        { sensor_type := "camera", model := "PINHOLE",
          width := (w : ℚ), height := (h : ℚ),
          fx := 7/10 * max (w : ℚ) (h : ℚ),
          fy := 7/10 * max (w : ℚ) (h : ℚ),
          cx := (w : ℚ) / 2, cy := (h : ℚ) / 2,
          name := "Phone camera" })] := by
  refine ⟨buildQuerySession w h, ?_, ?_⟩
  · unfold create_simple_query_session
    rw [hs, hr, hdims]
    rfl
  · unfold buildQuerySession
    simp [Nat.cast_max]

/-- Witness for the amended C7 at a concrete 64 x 48 image. -/
theorem C7_camera_heuristic_witness :
    ∃ qs : QuerySession,
      create_simple_query_session "query_single" envStd =
        .ok ("query_single", qs) ∧
      qs.sensors = [("camera",
        { sensor_type := "camera", model := "PINHOLE",
          width := ((64 : Nat) : ℚ), height := ((48 : Nat) : ℚ),
          fx := 7/10 * max ((64 : Nat) : ℚ) ((48 : Nat) : ℚ),
          fy := 7/10 * max ((64 : Nat) : ℚ) ((48 : Nat) : ℚ),
          cx := ((64 : Nat) : ℚ) / 2, cy := ((48 : Nat) : ℚ) / 2,
          name := "Phone camera" })] :=
  C7_camera_heuristic "query_single" envStd 64 48 rfl rfl rfl

/-- C8: in every localize_image run whose removal step can act, the cleanup
that precedes the builder leaves no entry at the query session path — a
pre-existing directory there is destructively removed (the entries are
filtered and the stored session dropped) — so the builder starts from an
absent session directory. -/
theorem C8_query_session_cleanup (map_path : String) (env : Env) (w : World)
    (hrm : env.rmtreeOk = true) :
    ∃ w3, cleanQueryStep env (mapLinkStep map_path (setupDirs w)) = .ok w3 ∧
      querySessionPath ∉ w3.entries ∧
      (querySessionPath ∈ (mapLinkStep map_path (setupDirs w)).entries →
        w3.entries = (mapLinkStep map_path (setupDirs w)).entries.filter
          (fun p => p != querySessionPath) ∧ w3.querySession = none) := by
  unfold cleanQueryStep
  by_cases hq : querySessionPath ∈ (mapLinkStep map_path (setupDirs w)).entries
  · rw [if_pos hq, hrm]
    refine ⟨_, rfl, ?_, fun _ => ⟨rfl, rfl⟩⟩
    simp [List.mem_filter]
  · rw [if_neg hq]
    exact ⟨_, rfl, hq, fun hcon => absurd hcon hq⟩

/-- Witness for C8 at a concrete world holding a leftover query session. -/
theorem C8_query_session_cleanup_witness :
    ∃ w3, cleanQueryStep envStd (mapLinkStep "navvis" (setupDirs wWithQuery)) =
        .ok w3 ∧
      querySessionPath ∉ w3.entries ∧
      (querySessionPath ∈ (mapLinkStep "navvis" (setupDirs wWithQuery)).entries →
        w3.entries = (mapLinkStep "navvis" (setupDirs wWithQuery)).entries.filter
          (fun p => p != querySessionPath) ∧ w3.querySession = none) :=
  C8_query_session_cleanup "navvis" envStd wWithQuery rfl

/-- C9: the builder fails with the invalid-input error exactly when the
query image cannot be opened or decoded (given the directories are fine),
it fails with the I/O error when a session directory cannot be created, and
the cleanup of an undeletable existing query session fails with the I/O
error as well. -/
theorem C9_builder_error_taxonomy (sid : String) (env : Env) :
    ((env.mkdirSessionOk = false ∨ env.mkdirRawOk = false) →
      ∃ m, create_simple_query_session sid env = .error (.ioError m)) ∧
    (env.mkdirSessionOk = true → env.mkdirRawOk = true →
      env.imageDims = none →
      ∃ m, create_simple_query_session sid env = .error (.invalidInput m)) ∧
    (∀ w : World, env.rmtreeOk = false → querySessionPath ∈ w.entries →
      ∃ m, cleanQueryStep env w = .error (.ioError m)) := by
  refine ⟨?_, ?_, ?_⟩
  · intro hd
    unfold create_simple_query_session
    rcases hd with h | h
    · rw [h]
      exact ⟨_, rfl⟩
    · cases hs : env.mkdirSessionOk
      · exact ⟨_, rfl⟩
      · rw [h]
        exact ⟨_, rfl⟩
  · intro hs hr hd
    unfold create_simple_query_session
    rw [hs, hr, hd]
    exact ⟨_, rfl⟩
  · intro w hrm hq
    unfold cleanQueryStep
    rw [if_pos hq, hrm]
    exact ⟨_, rfl⟩

/-- Witness for C9 at concrete failing environments: an uncreatable session
directory, an undecodable image, and an unremovable leftover session. -/
theorem C9_builder_error_taxonomy_witness :
    (∃ m, create_simple_query_session "query_single" envNoDir =
      .error (.ioError m)) ∧
    (∃ m, create_simple_query_session "query_single" envNoImg =
      .error (.invalidInput m)) ∧
    (∃ m, cleanQueryStep envNoRm wWithQuery = .error (.ioError m)) :=
  ⟨(C9_builder_error_taxonomy "query_single" envNoDir).1 (.inl rfl),
   (C9_builder_error_taxonomy "query_single" envNoImg).2.1 rfl rfl rfl,
   (C9_builder_error_taxonomy "query_single" envNoRm).2.2 wWithQuery rfl
     (by decide)⟩

/-- Helper: mkdir with exist_ok preserves membership of any entry. -/
theorem mem_mkdirIdem (p q : String) (es : List String) (h : p ∈ es) :
    p ∈ mkdirIdem q es := by
  unfold mkdirIdem
  split
  · exact h
  · exact List.mem_cons_of_mem _ h

/-- Helper: the directory-setup step preserves membership of any entry. -/
theorem mem_setupDirs (p : String) (w : World) (h : p ∈ w.entries) :
    p ∈ (setupDirs w).entries :=
  mem_mkdirIdem _ _ _ (mem_mkdirIdem _ _ _ h)

/-- C10: when an entry named map already exists under sessions, the
map-link step leaves the world unchanged and the map_path argument has no
effect on the whole localize_image run; the link (with its target) is
created only when no entry exists at that path. -/
theorem C10_map_link_only_if_absent (w : World) (mp1 mp2 : String)
    (env : Env) :
    (mapLinkPath ∈ w.entries →
      mapLinkStep mp1 (setupDirs w) = setupDirs w ∧
      localize_image mp1 env w = localize_image mp2 env w) ∧
    (mapLinkPath ∉ (setupDirs w).entries →
      (mapLinkStep mp1 (setupDirs w)).mapTarget = some mp1 ∧
      mapLinkPath ∈ (mapLinkStep mp1 (setupDirs w)).entries) := by
  constructor
  · intro hex
    have hex2 := mem_setupDirs mapLinkPath w hex
    have h1 : mapLinkStep mp1 (setupDirs w) = setupDirs w := by
      unfold mapLinkStep
      rw [if_pos hex2]
    have h2 : mapLinkStep mp2 (setupDirs w) = setupDirs w := by
      unfold mapLinkStep
      rw [if_pos hex2]
    refine ⟨h1, ?_⟩
    unfold localize_image
    rw [h1, h2]
  · intro hniq
    constructor
    · unfold mapLinkStep
      rw [if_neg hniq]
    · unfold mapLinkStep
      rw [if_neg hniq]
      exact List.mem_cons_self _ _

/-- Witness for C10 at a world with an existing map entry and at an empty
world. -/
theorem C10_map_link_only_if_absent_witness :
    (mapLinkStep "m1" (setupDirs wWithMap) = setupDirs wWithMap ∧
      localize_image "m1" envStd wWithMap =
        localize_image "m2" envStd wWithMap) ∧
    ((mapLinkStep "m1" (setupDirs wEmpty)).mapTarget = some "m1" ∧
      mapLinkPath ∈ (mapLinkStep "m1" (setupDirs wEmpty)).entries) :=
  ⟨(C10_map_link_only_if_absent wWithMap "m1" "m2" envStd).1 (by decide),
   (C10_map_link_only_if_absent wEmpty "m1" "m2" envStd).2 (by decide)⟩

end LamarPipeline
